import Mathlib

/-!
Verification of the interop-bridge surface declared in
`src/lua-5.1.5/src/luastdcall-windows.h`.

The repository ships only the declaration header for the bridge between a
host runtime and an embedded Lua 5.1 VM.  Two layers are formalised here:

1. a transcription of the C declarations of the header (names, parameter
   types, return types), exactly as written in the source file;
2. a behavioural model of each bridge operation.  The header carries no
   function bodies, so the behaviour is modelled from the specification
   (each such definition says so in its doc comment), while the declared
   C signatures constrain the types.
-/

namespace LuaStdcall

/-! ## C-level signatures transcribed from the header -/

/-- The C types that appear in the declarations of
`luastdcall-windows.h`. -/
inductive CType where
  | void
  | int
  | charPtr
  | constCharPtr
  | voidPtr
  | statePtr
  | stdcallFnPtr
  deriving DecidableEq, Repr

/-- Whether a C type from the header is a pointer type. -/
def CType.isPointer : CType → Bool
  | .charPtr => true
  | .constCharPtr => true
  | .voidPtr => true
  | .statePtr => true
  | .stdcallFnPtr => true
  | _ => false

/-- One C function declaration: its name, parameter types in order, and
return type. -/
structure CDecl where
  name : String
  params : List CType
  ret : CType
  deriving DecidableEq, Repr

/-- The eight declarations of `luastdcall-windows.h`, transcribed in
order from the source file. -/
def headerDecls : List CDecl :=
  [ ⟨"lua_pushstdcallcfunction", [.statePtr, .stdcallFnPtr], .void⟩,
    ⟨"lua_safetostring", [.statePtr, .int, .charPtr], .void⟩,
    ⟨"luaL_checkmetatable", [.statePtr, .int], .int⟩,
    ⟨"luanet_tonetobject", [.statePtr, .int], .int⟩,
    ⟨"luanet_newudata", [.statePtr, .int], .void⟩,
    ⟨"luanet_gettag", [], .voidPtr⟩,
    ⟨"luanet_rawnetobj", [.statePtr, .int], .int⟩,
    ⟨"luanet_checkudata", [.statePtr, .int, .constCharPtr], .int⟩ ]

/-- Look up a declaration of the header by function name. -/
def declOf (n : String) : Option CDecl :=
  headerDecls.find? (fun d => d.name = n)

/-! ## Behavioural model of the Guest VM as seen by the bridge -/

/-- A user-data block: a Guest-VM-managed memory block wrapping an opaque
host identifier, carrying a creator tag and an optional metatable name. -/
structure Udata where
  tag : Nat
  meta : Option String
  id : Int
  deriving DecidableEq, Repr

/-- The kinds of value a Guest VM stack slot can hold. -/
inductive LuaValue where
  | nil
  | boolean (b : Bool)
  | number (n : Int)
  | str (s : String)
  | table (meta : Option String)
  | udata (u : Udata)
  | func (ref : Nat)
  deriving DecidableEq, Repr

/-- The metatable (by name) associated with a value, if any. -/
def LuaValue.metaOf : LuaValue → Option String
  | .table m => m
  | .udata u => u.meta
  | _ => none

/-- The state of one Guest VM instance as the bridge observes it: the
process-wide bridge tag (fixed at initialization) and the evaluation
stack, top element first. -/
structure VMState where
  tag : Nat
  stack : List LuaValue
  deriving DecidableEq, Repr

/-- Push a value on top of the stack. -/
def VMState.push (st : VMState) (v : LuaValue) : VMState :=
  { st with stack := v :: st.stack }

/-- Read the value at a Lua stack index: positive indices count from the
bottom (1 = bottom), negative from the top (-1 = top); 0 and
out-of-range indices denote no value. -/
def VMState.getValue (st : VMState) (i : Int) : Option LuaValue :=
  if 0 < i then
    if i ≤ (st.stack.length : Int) then
      st.stack[st.stack.length - i.toNat]?
    else none
  else if i < 0 then
    st.stack[(-i).toNat - 1]?
  else none

/-- The Guest VM's abrupt-termination mechanism (the `lua_error` /
`longjmp` fault path): observing this outcome means the VM unwound the
native call instead of returning. -/
inductive GuestFault where
  | vmAbort
  deriving DecidableEq, Repr

/-- Result of a bridge call: either a value together with the VM state
after the call, or a Guest VM abrupt termination. -/
abbrev BridgeResult (α : Type) := Except GuestFault (α × VMState)

/-- The state after a bridge call, with `st` as the fallback when the VM
aborted. -/
def resState (st : VMState) : BridgeResult α → VMState
  | .ok (_, st') => st'
  | .error _ => st

/-- The value returned by a bridge call, with `d` as the fallback when
the VM aborted. -/
def resVal (d : α) : BridgeResult α → α
  | .ok (a, _) => a
  | .error _ => d

/-! ## The bridge operations

The header gives only declarations; the bodies are not in the
repository.  Each operation below is therefore modelled from the
specification, with its value types taken from the declared C
signature. -/

/-- Modelled from the spec: the textual representation the safe
stringify operation produces for each value kind; every kind has one, so
that non-string-convertible values get a representation instead of a
fault. -/
def valueRepr : LuaValue → String
  | .nil => "nil"
  | .boolean true => "true"
  | .boolean false => "false"
  | .number n => toString n
  | .str s => s
  | .table _ => "table"
  | .udata _ => "userdata"
  | .func _ => "function"

/-- The Guest VM's own unchecked string conversion: it only converts
numbers and strings, and raises the VM's abrupt-termination mechanism on
any other kind.  This is the fault path the safe stringify operation is
specified to avoid. -/
def lua_tostring_vm (st : VMState) (i : Int) : BridgeResult String :=
  match st.getValue i with
  | some (.number n) => .ok (toString n, st)
  | some (.str s) => .ok (s, st)
  | _ => .error .vmAbort

/-- Outcome of writing into the caller-supplied buffer: the
representation was written, or the caller's buffer-size precondition was
violated (undefined behaviour at the C level, modelled as a distinct
outcome that is not a VM fault). -/
inductive WriteOutcome where
  | written (s : String)
  | overrun
  deriving DecidableEq, Repr

/-- Modelled from the spec (the body of `lua_safetostring` is not in the
repository): converts the value at the index to a textual representation
for every value kind and writes it into the caller's buffer of capacity
`bufCap`, never raising the Guest VM's abrupt-termination mechanism; an
absent value is treated as nil. -/
def lua_safetostring (st : VMState) (i : Int) (bufCap : Nat) :
    BridgeResult WriteOutcome :=
  if (valueRepr ((st.getValue i).getD .nil)).length ≤ bufCap then
    .ok (.written (valueRepr ((st.getValue i).getD .nil)), st)
  else
    .ok (.overrun, st)

/-- Modelled from the spec (the body of `luaL_checkmetatable` is not in
the repository): returns a boolean-equivalent integer indicating whether
the value at the index has an associated metatable; side-effect-free. -/
def luaL_checkmetatable (st : VMState) (i : Int) : BridgeResult Int :=
  match st.getValue i with
  | some v => .ok (if v.metaOf.isSome then 1 else 0, st)
  | none => .ok (0, st)

/-- Modelled from the spec: the metatable name the bridge attaches to
the user-data blocks it creates (the spec's scenarios call it
"HostObject"). -/
def hostMetaName : String := "HostObject"

/-- Modelled from the spec: the integer failure indicator (sentinel)
the unwrap and convert operations return; the spec fixes only that it is
an integer sentinel, -1 is the conventional choice. -/
def luanet_failure : Int := -1

/-- The user-data block the wrap operation builds for host identifier
`v` under bridge tag `t`. -/
def wrapBlock (t : Nat) (v : Int) : Udata :=
  ⟨t, some hostMetaName, v⟩

/-- Modelled from the spec (the body of `luanet_newudata` is not in the
repository): allocates a user-data block tagged with this bridge's Tag,
storing the opaque host identifier `v`, and pushes it onto the stack. -/
def luanet_newudata (st : VMState) (v : Int) : BridgeResult Unit :=
  .ok ((), st.push (.udata (wrapBlock st.tag v)))

/-- Modelled from the spec (the body of `luanet_gettag` is not in the
repository): pure accessor returning the process-wide Tag, chosen once
and fixed for the process lifetime. -/
def luanet_gettag (st : VMState) : BridgeResult Nat :=
  .ok (st.tag, st)

/-- Modelled from the spec (the body of `luanet_rawnetobj` is not in the
repository): returns the raw host identifier stored in user data at the
index without verifying the tag or metatable; failure sentinel when the
slot does not hold user data. -/
def luanet_rawnetobj (st : VMState) (i : Int) : BridgeResult Int :=
  match st.getValue i with
  | some (.udata u) => .ok (u.id, st)
  | _ => .ok (luanet_failure, st)

/-- Modelled from the spec (the body of `luanet_tonetobject` is not in
the repository): returns the host identifier when the value at the index
is a user-data block carrying this bridge's Tag, and the failure
sentinel otherwise. -/
def luanet_tonetobject (st : VMState) (i : Int) : BridgeResult Int :=
  match st.getValue i with
  | some (.udata u) =>
      if u.tag = st.tag then .ok (u.id, st) else .ok (luanet_failure, st)
  | _ => .ok (luanet_failure, st)

/-- Whether checked unwrap succeeds at index `i` with expected metatable
name `meta`: the slot holds user data carrying this bridge's Tag whose
metatable matches the given name. -/
def checkudataMatches (st : VMState) (i : Int) (meta : String) : Bool :=
  match st.getValue i with
  | some (.udata u) => u.tag = st.tag && u.meta = some meta
  | _ => false

/-- Modelled from the spec (the body of `luanet_checkudata` is not in
the repository): the checked unwrap: when the value at the index is a
bridge-tagged user-data block whose metatable matches `meta`, returns
the stored host identifier (the declared C return type is `int`), and
the failure sentinel otherwise. -/
def luanet_checkudata (st : VMState) (i : Int) (meta : String) :
    BridgeResult Int :=
  match st.getValue i with
  | some (.udata u) =>
      if u.tag = st.tag && u.meta = some meta then .ok (u.id, st)
      else .ok (luanet_failure, st)
  | _ => .ok (luanet_failure, st)

/-- Modelled from the spec (the body of `lua_pushstdcallcfunction` is
not in the repository): registers a native function with the Guest VM by
pushing a callable value representing the native function reference
(`lua_stdcallCFunction` pointer, modelled as an opaque `Nat`) onto the
stack; no error return. -/
def lua_pushstdcallcfunction (st : VMState) (fn : Nat) : BridgeResult Unit :=
  .ok ((), st.push (.func fn))

/-! ## Traces of bridge calls -/

/-- One bridge call with its inputs (the VM handle being the state it is
applied to); one constructor per entry point declared in the header. -/
inductive BridgeOp where
  | pushstdcallcfunction (fn : Nat)
  | safetostring (i : Int) (bufCap : Nat)
  | checkmetatable (i : Int)
  | tonetobject (i : Int)
  | newudata (v : Int)
  | gettag
  | rawnetobj (i : Int)
  | checkudata (i : Int) (meta : String)
  deriving DecidableEq, Repr

/-- The outcome of one bridge call on a state: the state after the call,
or a Guest VM abrupt termination. -/
def applyOpE (st : VMState) : BridgeOp → Except GuestFault VMState
  | .pushstdcallcfunction fn => (lua_pushstdcallcfunction st fn).map (fun p => p.2)
  | .safetostring i c => (lua_safetostring st i c).map (fun p => p.2)
  | .checkmetatable i => (luaL_checkmetatable st i).map (fun p => p.2)
  | .tonetobject i => (luanet_tonetobject st i).map (fun p => p.2)
  | .newudata v => (luanet_newudata st v).map (fun p => p.2)
  | .gettag => (luanet_gettag st).map (fun p => p.2)
  | .rawnetobj i => (luanet_rawnetobj st i).map (fun p => p.2)
  | .checkudata i m => (luanet_checkudata st i m).map (fun p => p.2)

/-- The state after one bridge call (the state is unchanged if the VM
aborted). -/
def applyOp (st : VMState) (op : BridgeOp) : VMState :=
  match applyOpE st op with
  | .ok st' => st'
  | .error _ => st

/-- The state after a sequence of bridge calls. -/
def applyOps (st : VMState) : List BridgeOp → VMState
  | [] => st
  | op :: ops => applyOps (applyOp st op) ops

/-! ## Helper lemmas: every bridge call returns normally -/

theorem safetostring_ok (st : VMState) (i : Int) (c : Nat) :
    ∃ r, lua_safetostring st i c = .ok (r, st) := by
  by_cases h : (valueRepr ((st.getValue i).getD .nil)).length ≤ c
  · exact ⟨.written (valueRepr ((st.getValue i).getD .nil)),
      by simp [lua_safetostring, h]⟩
  · exact ⟨.overrun, by simp [lua_safetostring, h]⟩

theorem checkmetatable_ok (st : VMState) (i : Int) :
    ∃ r, luaL_checkmetatable st i = .ok (r, st) := by
  cases hv : st.getValue i with
  | none => exact ⟨0, by simp [luaL_checkmetatable, hv]⟩
  | some v =>
      exact ⟨if v.metaOf.isSome then 1 else 0, by simp [luaL_checkmetatable, hv]⟩

theorem tonetobject_ok (st : VMState) (i : Int) :
    ∃ r, luanet_tonetobject st i = .ok (r, st) := by
  cases hv : st.getValue i with
  | none => exact ⟨luanet_failure, by simp [luanet_tonetobject, hv]⟩
  | some v =>
      cases v with
      | udata u =>
          by_cases ht : u.tag = st.tag
          · exact ⟨u.id, by simp [luanet_tonetobject, hv, ht]⟩
          · exact ⟨luanet_failure, by simp [luanet_tonetobject, hv, ht]⟩
      | nil => exact ⟨luanet_failure, by simp [luanet_tonetobject, hv]⟩
      | boolean b => exact ⟨luanet_failure, by simp [luanet_tonetobject, hv]⟩
      | number n => exact ⟨luanet_failure, by simp [luanet_tonetobject, hv]⟩
      | str s => exact ⟨luanet_failure, by simp [luanet_tonetobject, hv]⟩
      | table m => exact ⟨luanet_failure, by simp [luanet_tonetobject, hv]⟩
      | func f => exact ⟨luanet_failure, by simp [luanet_tonetobject, hv]⟩

theorem rawnetobj_ok (st : VMState) (i : Int) :
    ∃ r, luanet_rawnetobj st i = .ok (r, st) := by
  cases hv : st.getValue i with
  | none => exact ⟨luanet_failure, by simp [luanet_rawnetobj, hv]⟩
  | some v =>
      cases v with
      | udata u => exact ⟨u.id, by simp [luanet_rawnetobj, hv]⟩
      | nil => exact ⟨luanet_failure, by simp [luanet_rawnetobj, hv]⟩
      | boolean b => exact ⟨luanet_failure, by simp [luanet_rawnetobj, hv]⟩
      | number n => exact ⟨luanet_failure, by simp [luanet_rawnetobj, hv]⟩
      | str s => exact ⟨luanet_failure, by simp [luanet_rawnetobj, hv]⟩
      | table m => exact ⟨luanet_failure, by simp [luanet_rawnetobj, hv]⟩
      | func f => exact ⟨luanet_failure, by simp [luanet_rawnetobj, hv]⟩

theorem checkudata_ok (st : VMState) (i : Int) (m : String) :
    ∃ r, luanet_checkudata st i m = .ok (r, st) := by
  cases hv : st.getValue i with
  | none => exact ⟨luanet_failure, by simp [luanet_checkudata, hv]⟩
  | some v =>
      cases v with
      | udata u =>
          cases hb : (u.tag = st.tag && u.meta = some m)
          · exact ⟨luanet_failure, by simp [luanet_checkudata, hv, hb]⟩
          · exact ⟨u.id, by simp [luanet_checkudata, hv, hb]⟩
      | nil => exact ⟨luanet_failure, by simp [luanet_checkudata, hv]⟩
      | boolean b => exact ⟨luanet_failure, by simp [luanet_checkudata, hv]⟩
      | number n => exact ⟨luanet_failure, by simp [luanet_checkudata, hv]⟩
      | str s => exact ⟨luanet_failure, by simp [luanet_checkudata, hv]⟩
      | table mm => exact ⟨luanet_failure, by simp [luanet_checkudata, hv]⟩
      | func f => exact ⟨luanet_failure, by simp [luanet_checkudata, hv]⟩

theorem applyOp_tag (st : VMState) (op : BridgeOp) :
    (applyOp st op).tag = st.tag := by
  cases op with
  | pushstdcallcfunction fn =>
      simp [applyOp, applyOpE, lua_pushstdcallcfunction, Except.map,
        VMState.push]
  | safetostring i c =>
      obtain ⟨r, hr⟩ := safetostring_ok st i c
      simp [applyOp, applyOpE, hr, Except.map]
  | checkmetatable i =>
      obtain ⟨r, hr⟩ := checkmetatable_ok st i
      simp [applyOp, applyOpE, hr, Except.map]
  | tonetobject i =>
      obtain ⟨r, hr⟩ := tonetobject_ok st i
      simp [applyOp, applyOpE, hr, Except.map]
  | newudata v =>
      simp [applyOp, applyOpE, luanet_newudata, Except.map, VMState.push]
  | gettag =>
      simp [applyOp, applyOpE, luanet_gettag, Except.map]
  | rawnetobj i =>
      obtain ⟨r, hr⟩ := rawnetobj_ok st i
      simp [applyOp, applyOpE, hr, Except.map]
  | checkudata i m =>
      obtain ⟨r, hr⟩ := checkudata_ok st i m
      simp [applyOp, applyOpE, hr, Except.map]

theorem applyOps_tag (ops : List BridgeOp) (st : VMState) :
    (applyOps st ops).tag = st.tag := by
  induction ops generalizing st with
  | nil => rfl
  | cons op ops ih =>
      have hstep : applyOps st (op :: ops) = applyOps (applyOp st op) ops := rfl
      rw [hstep, ih, applyOp_tag]

/-! ## Claim theorems -/

/-- C1: for every stack index holding a user-data block created by the
wrap operation (`luanet_newudata`) with this bridge's Tag, the checked
unwrap (`luanet_checkudata`) called with the correct metatable name
succeeds (its success predicate holds, so the failure branch is not
taken) and returns exactly the host identifier that was passed to
wrap. -/
theorem C1_wrap_then_checkudata_recovers_id (st : VMState) (i : Int) (v : Int)
    (h : st.getValue i = some (.udata (wrapBlock st.tag v))) :
    checkudataMatches st i hostMetaName = true ∧
    luanet_checkudata st i hostMetaName = .ok (v, st) := by
  constructor
  · simp [checkudataMatches, h, wrapBlock]
  · simp [luanet_checkudata, h, wrapBlock]

/-- C1 witness: the spec's scenario — wrap(host_id = 42) pushed on an
empty stack of a VM whose bridge tag is 5, then checked unwrap at stack
index 1 with metatable name "HostObject" succeeds and recovers 42. -/
theorem C1_wrap_then_checkudata_recovers_id_witness :
    checkudataMatches ⟨5, [.udata (wrapBlock 5 42)]⟩ 1 hostMetaName = true ∧
    luanet_checkudata ⟨5, [.udata (wrapBlock 5 42)]⟩ 1 hostMetaName =
      .ok (42, ⟨5, [.udata (wrapBlock 5 42)]⟩) :=
  C1_wrap_then_checkudata_recovers_id ⟨5, [.udata (wrapBlock 5 42)]⟩ 1 42
    (by decide)

/-- C2: for every stack index holding a user-data block whose tag or
metatable does not match this bridge's, the checked unwrap
(`luanet_checkudata`) returns the failure sentinel and its success
predicate is false — the foreign block is never reinterpreted as a
bridge-owned one. -/
theorem C2_foreign_udata_rejected (st : VMState) (i : Int) (meta : String)
    (u : Udata) (h : st.getValue i = some (.udata u))
    (hforeign : u.tag ≠ st.tag ∨ u.meta ≠ some meta) :
    checkudataMatches st i meta = false ∧
    luanet_checkudata st i meta = .ok (luanet_failure, st) := by
  have hcond : (u.tag = st.tag && u.meta = some meta) = false := by
    cases hforeign with
    | inl h1 => simp [h1]
    | inr h2 => simp [h2]
  constructor
  · simp [checkudataMatches, h, hcond]
  · simp [luanet_checkudata, h, hcond]

/-- C2 witness: a user-data block created by a different subsystem
(tag 99, no metatable) on a VM whose bridge tag is 5 is rejected by
checked unwrap. -/
theorem C2_foreign_udata_rejected_witness :
    checkudataMatches ⟨5, [.udata ⟨99, none, 7⟩]⟩ 1 hostMetaName = false ∧
    luanet_checkudata ⟨5, [.udata ⟨99, none, 7⟩]⟩ 1 hostMetaName =
      .ok (luanet_failure, ⟨5, [.udata ⟨99, none, 7⟩]⟩) :=
  C2_foreign_udata_rejected ⟨5, [.udata ⟨99, none, 7⟩]⟩ 1 hostMetaName
    ⟨99, none, 7⟩ (by decide) (Or.inl (by decide))

/-- C3 counterexample: the claim says checked unwrap returns the
user-data block pointer itself, a pointer-typed result; but the header
declares `luanet_checkudata` with return type `int`, which is not a
pointer type. -/
theorem C3_checkudata_returns_int_not_pointer :
    (declOf "luanet_checkudata").map CDecl.ret = some CType.int ∧
    CType.int.isPointer = false := by
  decide

/-- C3 amended: on success the checked unwrap returns an integer result,
the host identifier stored in the user-data block (the declared C return
type is `int`); otherwise it returns the integer failure sentinel. -/
theorem C3_checkudata_int_result (st : VMState) (i : Int) (meta : String) :
    (∃ u, st.getValue i = some (.udata u) ∧
        checkudataMatches st i meta = true ∧
        luanet_checkudata st i meta = .ok (u.id, st)) ∨
    luanet_checkudata st i meta = .ok (luanet_failure, st) := by
  cases hv : st.getValue i with
  | none => exact Or.inr (by simp [luanet_checkudata, hv])
  | some v =>
      cases v with
      | udata u =>
          cases hb : (u.tag = st.tag && u.meta = some meta)
          · exact Or.inr (by simp [luanet_checkudata, hv, hb])
          · exact Or.inl ⟨u, rfl, by simp [checkudataMatches, hv, hb],
              by simp [luanet_checkudata, hv, hb]⟩
      | nil => exact Or.inr (by simp [luanet_checkudata, hv])
      | boolean b => exact Or.inr (by simp [luanet_checkudata, hv])
      | number n => exact Or.inr (by simp [luanet_checkudata, hv])
      | str s => exact Or.inr (by simp [luanet_checkudata, hv])
      | table m => exact Or.inr (by simp [luanet_checkudata, hv])
      | func f => exact Or.inr (by simp [luanet_checkudata, hv])

/-- C4: for every value kind at the given stack index, the safe
stringify operation completes normally — it never takes the Guest VM's
abrupt-termination path — provided the caller-supplied buffer is large
enough for the value's representation. -/
theorem C4_safetostring_never_aborts (st : VMState) (i : Int) (bufCap : Nat)
    (h : (valueRepr ((st.getValue i).getD .nil)).length ≤ bufCap) :
    lua_safetostring st i bufCap =
      .ok (.written (valueRepr ((st.getValue i).getD .nil)), st) ∧
    ∀ f, lua_safetostring st i bufCap ≠ Except.error f := by
  constructor
  · simp [lua_safetostring, h]
  · intro f
    simp [lua_safetostring, h]

/-- C4 witness: a table — a kind the unchecked conversion would fault
on — is stringified into a 5-character buffer without a VM abort. -/
theorem C4_safetostring_never_aborts_witness :
    lua_safetostring ⟨0, [.table none]⟩ 1 5 =
      .ok (.written (valueRepr (((VMState.mk 0 [.table none]).getValue 1).getD
        .nil)), ⟨0, [.table none]⟩) ∧
    ∀ f, lua_safetostring ⟨0, [.table none]⟩ 1 5 ≠ Except.error f :=
  C4_safetostring_never_aborts ⟨0, [.table none]⟩ 1 5 (by decide)

/-- C5: for every value on the stack, the check metatable operation
returns 0 exactly when the value has no associated metatable and a
nonzero integer exactly when it has one. -/
theorem C5_checkmetatable_zero_iff_no_meta (st : VMState) (i : Int)
    (v : LuaValue) (h : st.getValue i = some v) :
    (resVal 0 (luaL_checkmetatable st i) = 0 ↔ v.metaOf = none) ∧
    (resVal 0 (luaL_checkmetatable st i) ≠ 0 ↔ v.metaOf.isSome = true) := by
  cases hm : v.metaOf with
  | none => simp [luaL_checkmetatable, h, resVal, hm]
  | some m => simp [luaL_checkmetatable, h, resVal, hm]

/-- C5 witness: a table carrying a metatable at index 1 makes check
metatable return a nonzero integer. -/
theorem C5_checkmetatable_zero_iff_no_meta_witness :
    (resVal 0 (luaL_checkmetatable ⟨0, [.table (some "M")]⟩ 1) = 0 ↔
      (LuaValue.table (some "M")).metaOf = none) ∧
    (resVal 0 (luaL_checkmetatable ⟨0, [.table (some "M")]⟩ 1) ≠ 0 ↔
      (LuaValue.table (some "M")).metaOf.isSome = true) :=
  C5_checkmetatable_zero_iff_no_meta ⟨0, [.table (some "M")]⟩ 1
    (.table (some "M")) (by decide)

/-- C6: for every stack index holding a user-data block storing host
identifier v — whatever its tag and metatable, so in particular for
blocks created by wrap — the raw unwrap operation returns v; the result
does not depend on the tag or metatable, i.e. no validation is
performed. -/
theorem C6_rawnetobj_returns_id_no_validation (st : VMState) (i : Int)
    (t : Nat) (m : Option String) (v : Int)
    (h : st.getValue i = some (.udata ⟨t, m, v⟩)) :
    luanet_rawnetobj st i = .ok (v, st) := by
  simp [luanet_rawnetobj, h]

/-- C6 witness: a block storing identifier 7 under a foreign tag (123)
with no metatable is still unwrapped to 7 by the raw path, showing no
tag or metatable check happens; this matches the spec scenario
wrap(host_id = 7) followed by raw unwrap returning 7. -/
theorem C6_rawnetobj_returns_id_no_validation_witness :
    luanet_rawnetobj ⟨5, [.udata ⟨123, none, 7⟩]⟩ 1 =
      .ok (7, ⟨5, [.udata ⟨123, none, 7⟩]⟩) :=
  C6_rawnetobj_returns_id_no_validation ⟨5, [.udata ⟨123, none, 7⟩]⟩ 1
    123 none 7 (by decide)

/-- C7: the get tag operation is a pure accessor of a process-lifetime
constant — after any two sequences of bridge calls starting from the
same initial state, the two calls to get tag return equal Tag values. -/
theorem C7_gettag_stable (st : VMState) (ops₁ ops₂ : List BridgeOp) :
    resVal 0 (luanet_gettag (applyOps st ops₁)) =
      resVal 0 (luanet_gettag (applyOps st ops₂)) := by
  simp [luanet_gettag, resVal, applyOps_tag]

/-- C8: no bridge operation, on any state and input, ever invokes the
Guest VM's abrupt-termination mechanism: every bridge call returns
normally (every detected error being resolved into a sentinel return
value inside the operation). -/
theorem C8_bridge_never_aborts (st : VMState) (op : BridgeOp) :
    ∃ st', applyOpE st op = Except.ok st' := by
  cases op with
  | pushstdcallcfunction fn =>
      exact ⟨st.push (.func fn),
        by simp [applyOpE, lua_pushstdcallcfunction, Except.map]⟩
  | safetostring i c =>
      obtain ⟨r, hr⟩ := safetostring_ok st i c
      exact ⟨st, by simp [applyOpE, hr, Except.map]⟩
  | checkmetatable i =>
      obtain ⟨r, hr⟩ := checkmetatable_ok st i
      exact ⟨st, by simp [applyOpE, hr, Except.map]⟩
  | tonetobject i =>
      obtain ⟨r, hr⟩ := tonetobject_ok st i
      exact ⟨st, by simp [applyOpE, hr, Except.map]⟩
  | newudata v =>
      exact ⟨st.push (.udata (wrapBlock st.tag v)),
        by simp [applyOpE, luanet_newudata, Except.map]⟩
  | gettag => exact ⟨st, by simp [applyOpE, luanet_gettag, Except.map]⟩
  | rawnetobj i =>
      obtain ⟨r, hr⟩ := rawnetobj_ok st i
      exact ⟨st, by simp [applyOpE, hr, Except.map]⟩
  | checkudata i m =>
      obtain ⟨r, hr⟩ := checkudata_ok st i m
      exact ⟨st, by simp [applyOpE, hr, Except.map]⟩

/-- C9: the check metatable operation is side-effect-free: on every VM
state and stack index it returns normally with the VM state — stack
included — unchanged. -/
theorem C9_checkmetatable_no_side_effect (st : VMState) (i : Int) :
    resState st (luaL_checkmetatable st i) = st ∧
    ∃ r, luaL_checkmetatable st i = .ok (r, st) := by
  obtain ⟨r, hr⟩ := checkmetatable_ok st i
  exact ⟨by simp [hr, resState], r, hr⟩

/-- C10: the host identifiers at the public interface are plain machine
integers, not pointers — wrap takes the identifier as `int`, and both
convert-to-host-object and raw unwrap return `int` — so the failure
sentinel of convert-to-host-object lives in the same integer domain as
legitimate identifiers: converting a legitimately wrapped identifier can
yield exactly the sentinel value. -/
theorem C10_identifiers_are_plain_ints :
    (declOf "luanet_newudata").map CDecl.params =
      some [CType.statePtr, CType.int] ∧
    (declOf "luanet_tonetobject").map CDecl.ret = some CType.int ∧
    (declOf "luanet_rawnetobj").map CDecl.ret = some CType.int ∧
    CType.int.isPointer = false ∧
    resVal 0 (luanet_tonetobject
      ⟨5, [.udata (wrapBlock 5 luanet_failure)]⟩ 1) = luanet_failure := by
  decide

end LuaStdcall
